import Mathlib

/-!
A shallow embedding of `homework.py` (a Telegram homework-status polling
bot) and proofs about its observable behavior.

JSON-decoded Python values are modelled by `PyVal`; Python exceptions by
`PyExc`; the network and the Telegram transport are modelled as oracle
inputs (`FetchOutcome`, the `Option PyExc` send outcomes in `CycleEnv`),
so each steady-state cycle of `main`'s `while True` loop becomes the pure
transition function `runCycle`.
-/

namespace Homework

/-- A JSON-decodable Python value: `None`, `int`, `str`, `list`, `dict`
(JSON object keys are strings). -/
inductive PyVal where
  | none : PyVal
  | int : Int → PyVal
  | str : String → PyVal
  | list : List PyVal → PyVal
  | dict : List (String × PyVal) → PyVal

/-- Python exception values, as type-plus-message pairs.

Modelled from the spec: the repository's `exceptions` module (imported by
`homework.py` but not present under `src/`) defines `WrongResponseError`,
`NotJSONError` and `WrongJSONError`; per the spec's error taxonomy and
propagation policy ("Recovered: reported via notification, loop
continues") they are ordinary `Exception` subclasses carrying a message,
so `except Exception` catches them. `keyError`, `typeError`,
`valueError`, `attributeError` are the Python builtins; `telegramError`
stands for any delivery failure raised by the bot transport. -/
inductive PyExc where
  | wrongResponseError (msg : String)
  | notJSONError (msg : String)
  | wrongJSONError (msg : String)
  | keyError (msg : String)
  | typeError (msg : String)
  | valueError (msg : String)
  | attributeError (msg : String)
  | telegramError (msg : String)
deriving DecidableEq

/-- A single-quote character, used by Python `str()` of a `KeyError`. -/
def squote : String := String.singleton (Char.ofNat 39)

/-- Python `str(exc)`: the message, except `KeyError` which shows the
`repr` of its argument (hence the surrounding single quotes). -/
def excStr : PyExc → String
  | .wrongResponseError m => m
  | .notJSONError m => m
  | .wrongJSONError m => m
  | .keyError m => squote ++ m ++ squote
  | .typeError m => m
  | .valueError m => m
  | .attributeError m => m
  | .telegramError m => m

/-- `isinstance(v, dict)`. -/
def PyVal.isDict : PyVal → Bool
  | .dict _ => true
  | _ => false

/-- `isinstance(v, list)`. -/
def PyVal.isList : PyVal → Bool
  | .list _ => true
  | _ => false

/-- Python `key in v` for a string `key`: key containment for a dict,
element membership for a list, substring for a str, `TypeError` for
non-containers. -/
def pyContains (v : PyVal) (key : String) : Except PyExc Bool :=
  match v with
  | .dict ps => .ok (ps.lookup key).isSome
  | .list xs => .ok (xs.any (fun x => match x with | .str s => s == key | _ => false))
  | .str s => .ok (decide (key.data <:+: s.data))
  | .int _ => .error (.typeError "argument of type is not iterable")
  | .none => .error (.typeError "argument of type is not iterable")

/-- Python `v[key]` for a string `key`: dict lookup raising `KeyError`
when absent, `TypeError` on any non-dict. -/
def pySubscript (v : PyVal) (key : String) : Except PyExc PyVal :=
  match v with
  | .dict ps =>
    match ps.lookup key with
    | some x => .ok x
    | Option.none => .error (.keyError key)
  | .list _ => .error (.typeError "list indices must be integers or slices, not str")
  | .str _ => .error (.typeError "string indices must be integers")
  | .int _ => .error (.typeError "int object is not subscriptable")
  | .none => .error (.typeError "NoneType object is not subscriptable")

/-- Python `v.get(key)`: dict method returning the value or `None`;
`AttributeError` on any non-dict. -/
def pyGetMeth (v : PyVal) (key : String) : Except PyExc PyVal :=
  match v with
  | .dict ps =>
    match ps.lookup key with
    | some x => .ok x
    | Option.none => .ok .none
  | _ => .error (.attributeError "object has no attribute get")

mutual
/-- Python `repr(v)` over our value universe. -/
def pyReprOf : PyVal → String
  | .none => "None"
  | .int n => toString n
  | .str s => squote ++ s ++ squote
  | .list xs => "[" ++ pyReprList xs ++ "]"
  | .dict ps => "\x7b" ++ pyReprDict ps ++ "\x7d"

/-- Comma-separated reprs of list elements. -/
def pyReprList : List PyVal → String
  | [] => ""
  | [x] => pyReprOf x
  | x :: xs => pyReprOf x ++ ", " ++ pyReprList xs

/-- Comma-separated reprs of dict items. -/
def pyReprDict : List (String × PyVal) → String
  | [] => ""
  | [(k, v)] => squote ++ k ++ squote ++ ": " ++ pyReprOf v
  | (k, v) :: ps => squote ++ k ++ squote ++ ": " ++ pyReprOf v ++ ", " ++ pyReprDict ps
end

/-- Python `str(v)`: the string itself for a `str`, `repr` otherwise. -/
def pyStrOf (v : PyVal) : String :=
  match v with
  | .str s => s
  | _ => pyReprOf v

/-- `ENDPOINT` constant of `homework.py`. -/
def ENDPOINT : String := "https://practicum.yandex.ru/api/user_api/homework_statuses/"

/-- The `HOMEWORK_STATUSES` table of `homework.py`: status code to
localized verdict sentence. -/
def HOMEWORK_STATUSES : List (String × String) :=
  [ ("approved", "Работа проверена: ревьюеру всё понравилось. Ура!"),
    ("reviewing", "Работа взята на проверку ревьюером."),
    ("rejected", "Работа проверена: у ревьюера есть замечания.") ]

/-- `status in HOMEWORK_STATUSES` (homework.py line 105): Python dict
membership hashes the candidate key first, so an unhashable status (a
list or a dict) raises `TypeError`; a hashable non-string status (an
int, `None`) is simply not a key, and a string status is looked up. -/
def statusKnown : PyVal → Except PyExc Bool
  | .str s => .ok (HOMEWORK_STATUSES.lookup s).isSome
  | .int _ => .ok false
  | .none => .ok false
  | .list _ => .error (.typeError ("unhashable type: " ++ squote ++ "list" ++ squote))
  | .dict _ => .error (.typeError ("unhashable type: " ++ squote ++ "dict" ++ squote))

/-- `check_response` (homework.py lines 79-92): accumulates an error
message over three checks, but evaluates `response['homeworks']` in the
third check BEFORE the accumulated message is raised, so a missing
`homeworks` key raises a bare `KeyError` (and a non-dict response makes
the `in` test raise `TypeError`) instead of the typed `WrongJSONError`. -/
def check_response (response : PyVal) : Except PyExc PyVal := do
  let em0 := if ¬ response.isDict then "Полученный ответ - не словарь." else ""
  let c ← pyContains response "homeworks"
  let em1 := if ¬ c then "Ответ не содержит списка работ." else em0
  let hv ← pySubscript response "homeworks"
  let em2 := if ¬ hv.isList then "переменная под ключом \"homeworks\" не в виде списка" else em1
  if em2.length > 0 then
    .error (.wrongJSONError em2)
  else
    pySubscript response "homeworks"

/-- `parse_status` (homework.py lines 95-111): accumulates an error
message, but subscripts `homework['homework_name']` and
`homework['status']` before raising, so a missing key raises the dict's
own `KeyError`; an unknown hashable status raises
`KeyError(error_message)`, while an unhashable status makes the
membership test of line 105 itself raise `TypeError`. -/
def parse_status (homework : PyVal) : Except PyExc String := do
  let c1 ← pyContains homework "homework_name"
  let em1 := if ¬ c1 then "Неизвестное имя домашней работы" else ""
  let c2 ← pyContains homework "status"
  let em2 := if ¬ c2 then "Отсутствует статус проверки домашней работы" else em1
  let homework_name ← pySubscript homework "homework_name"
  let homework_status ← pySubscript homework "status"
  let known ← statusKnown homework_status
  let em3 := if ¬ known then "Неправильный статус проверки домашней работы" else em2
  if em3.length > 0 then
    .error (.keyError em3)
  else
    match homework_status with
    | .str s =>
      match HOMEWORK_STATUSES.lookup s with
      | some verdict =>
        .ok ("Изменился статус проверки работы \"" ++ pyStrOf homework_name ++ "\". " ++ verdict)
      | Option.none => .error (.keyError s)
    | _ => .error (.keyError (pyStrOf homework_status))

/-- What the network does in response to the single `requests.get` of one
`get_api_answer` call: a transport-level exception, a non-200 HTTP status,
a 200 body that is not JSON, or a 200 body decoding to `body`. -/
inductive FetchOutcome where
  | reqError (e : String)
  | badStatus (code : Nat)
  | badJSON
  | ok (body : PyVal)

/-- `get_api_answer` (homework.py lines 53-76), with the network's
behavior supplied as `outcome`: transport errors map to
`WrongResponseError` (note the source raises the message with literal
braces — the string is not an f-string), non-200 to `WrongResponseError`
carrying the status code, undecodable bodies to `NotJSONError`. -/
def get_api_answer (outcome : FetchOutcome) : Except PyExc PyVal :=
  match outcome with
  | .reqError _ => .error (.wrongResponseError "Ошибка сервера \x7be\x7d")
  | .badStatus code =>
    .error (.wrongResponseError ("Эндпойнт " ++ ENDPOINT ++ " недоступен. Ошибка " ++ toString code))
  | .badJSON => .error (.notJSONError "Невозможно привести данные к типам Python")
  | .ok body => .ok body

/-- The loop's mutable state: `current_timestamp` (the poll cursor, a
`PyVal` because `response.get` can yield `None`) and `old_error_message`
(the last error-report text sent). -/
structure LoopState where
  current_timestamp : PyVal
  old_error_message : String

/-- Notification channels: the status-update message of line 168 versus
the error report of line 174. -/
inductive Channel where
  | status
  | error
deriving DecidableEq

/-- One invocation of `send_message`: which call site, the text passed,
and whether the transport delivered it (`false` = the send raised). -/
structure SendEvent where
  channel : Channel
  message : String
  delivered : Bool

/-- The environment's behavior during one cycle: the network's response
to the fetch, and whether each potential `send_message` call raises
(`Option.none` = delivery succeeds). -/
structure CycleEnv where
  fetch : FetchOutcome
  statusSend : Option PyExc
  errorSend : Option PyExc

/-- Result of the `try` block of one cycle: the state as mutated so far,
the send attempts made, and the exception reaching the `except` handler
(if any). -/
structure TryOut where
  state : LoopState
  sends : List SendEvent
  exc : Option PyExc

/-- Message of the dead `raise ValueError` at homework.py line 164. -/
def hwTypeMsg : String := "Тип данных атрибута \"homeworks\" не словарь"

/-- The `try` block of one steady-state cycle (homework.py lines
158-170): fetch, overwrite the cursor from `response.get('current_date')`,
validate, and either format-and-send the first record or do nothing on an
empty list. Any raise stops the block with the cursor updates made so
far kept. -/
def tryBody (st : LoopState) (env : CycleEnv) : TryOut :=
  match get_api_answer env.fetch with
  | .error e => ⟨st, [], some e⟩
  | .ok response =>
    match pyGetMeth response "current_date" with
    | .error e => ⟨st, [], some e⟩
    | .ok ts =>
      let st1 : LoopState := ⟨ts, st.old_error_message⟩
      match check_response response with
      | .error e => ⟨st1, [], some e⟩
      | .ok homeworks =>
        match homeworks with
        | .list [] => ⟨st1, [], Option.none⟩
        | .list (hw :: _) =>
          match parse_status hw with
          | .error e => ⟨st1, [], some e⟩
          | .ok message =>
            match env.statusSend with
            | Option.none => ⟨st1, [⟨.status, message, true⟩], Option.none⟩
            | some e => ⟨st1, [⟨.status, message, false⟩], some e⟩
        | _ => ⟨st1, [], some (.valueError hwTypeMsg)⟩

/-- Result of one full cycle: the `from_date` this cycle's request used,
the state left for the next cycle, the send attempts, and the exception
escaping the loop (the `send_message` inside the `except` handler is
unguarded, so its failure propagates out of `main`). -/
structure CycleOut where
  fromDate : PyVal
  state : LoopState
  sends : List SendEvent
  crashed : Option PyExc

/-- The error-report text of line 172:
`f'Сбой в работе программы: {error}'`. -/
def errReport (e : PyExc) : String := "Сбой в работе программы: " ++ excStr e

/-- One iteration of `while True` (homework.py lines 157-178): run the
`try` block; on an exception build the report `errReport error`, and when
it differs from `old_error_message` send it and record it — the
unguarded send's own failure crashes the loop. -/
def runCycle (st : LoopState) (env : CycleEnv) : CycleOut :=
  match (tryBody st env).exc with
  | Option.none => ⟨st.current_timestamp, (tryBody st env).state, (tryBody st env).sends, Option.none⟩
  | some error =>
    if errReport error ≠ (tryBody st env).state.old_error_message then
      match env.errorSend with
      | Option.none =>
        ⟨st.current_timestamp, ⟨(tryBody st env).state.current_timestamp, errReport error⟩,
          (tryBody st env).sends ++ [⟨.error, errReport error, true⟩], Option.none⟩
      | some e =>
        ⟨st.current_timestamp, (tryBody st env).state,
          (tryBody st env).sends ++ [⟨.error, errReport error, false⟩], some e⟩
    else
      ⟨st.current_timestamp, (tryBody st env).state, (tryBody st env).sends, Option.none⟩

/-- Run the loop over a finite prefix of environment behaviors; a crash
ends the trace. -/
def runTrace (st : LoopState) : List CycleEnv → List CycleOut
  | [] => []
  | env :: rest =>
    match (runCycle st env).crashed with
    | some _ => [runCycle st env]
    | Option.none => runCycle st env :: runTrace (runCycle st env).state rest

/-- The texts delivered on channel `c` across a trace (send attempts
whose transport succeeded). -/
def sentOn (c : Channel) (outs : List CycleOut) : List String :=
  ((outs.map (fun o => o.sends)).flatten).filterMap
    (fun s => if s.channel = c ∧ s.delivered then some s.message else Option.none)

/-- `check_tokens` (homework.py lines 114-127): `False` iff any of the
three environment variables is unset. -/
def check_tokens (p t c : Option String) : Bool :=
  if p.isNone || t.isNone || c.isNone then false else true

/-- How `main`'s startup prefix (homework.py lines 134-146) ends:
`exited exc notices` means an exception terminated the process before
line 147 (the bot construction preceding the poll loop), after the
notification attempts `notices` (text, delivered); `proceeded` means
control reached the poll-loop setup. -/
inductive StartupOutcome where
  | exited (exc : PyExc) (notices : List (String × Bool))
  | proceeded

/-- Startup notice sent when only the Practicum token is missing. -/
def startupNoticeMsg : String := "Отсутствуют учетные данные для доступа к сервису"

/-- Message of the `ValueError` raised when tokens are missing and no
notice can be sent. -/
def startupFatalMsg : String :=
  "Oтсутствуют обязательные переменные окружения.Программа принудительно остановлена."

/-- `main`'s startup token handling (homework.py lines 134-146): if some
token is missing but both Telegram credentials are present, send one
best-effort notice (whose own failure also terminates) then raise
`ValueError`; if some token is missing otherwise, raise `ValueError`
directly; else proceed to the loop. `sendOutcome` is the transport's
behavior for the notice (`Option.none` = delivered). -/
def startupMain (p t c : Option String) (sendOutcome : Option PyExc) : StartupOutcome :=
  let tokens_exist := check_tokens p t c
  if ¬ tokens_exist ∧ t ≠ Option.none ∧ c ≠ Option.none then
    match sendOutcome with
    | Option.none => .exited (.valueError startupNoticeMsg) [(startupNoticeMsg, true)]
    | some e => .exited e [(startupNoticeMsg, false)]
  else if ¬ tokens_exist then
    .exited (.valueError startupFatalMsg) []
  else
    .proceeded

/-! Concrete scenario values used by the evaluation theorems below. -/

/-- A well-formed homework record with status `approved`. -/
def hwApproved : PyVal := .dict [("homework_name", .str "hw1"), ("status", .str "approved")]

/-- A well-formed response carrying `hwApproved` and a `current_date`. -/
def respApproved : PyVal :=
  .dict [("homeworks", .list [hwApproved]), ("current_date", .int 1000)]

/-- A loop state with cursor `0` and no error message sent yet. -/
def stInit : LoopState := ⟨.int 0, ""⟩

/-- A cycle in which the fetch returns `respApproved` and both sends
succeed. -/
def envApproved : CycleEnv := ⟨.ok respApproved, Option.none, Option.none⟩

/-- A cycle in which the fetch raises a transport error and sends
succeed. -/
def envFetchFail : CycleEnv := ⟨.reqError "boom", Option.none, Option.none⟩

/-- A cycle with a valid, empty-`homeworks` response. -/
def envEmptyOk : CycleEnv :=
  ⟨.ok (.dict [("homeworks", .list []), ("current_date", .int 7)]), Option.none, Option.none⟩

/-- A cycle in which the fetch raises and the error-channel send also
raises. -/
def envFetchFailCrash : CycleEnv :=
  ⟨.reqError "boom", Option.none, some (.telegramError "down")⟩

/-- The formatted status message for `hwApproved`. -/
def approvedMsg : String :=
  "Изменился статус проверки работы \"hw1\". Работа проверена: ревьюеру всё понравилось. Ура!"

/-- The error report produced by a transport-level fetch failure. -/
def fetchFailReport : String := "Сбой в работе программы: Ошибка сервера \x7be\x7d"

/-- A cycle whose response has an empty `homeworks` list and no
`current_date` key. -/
def envNoDate : CycleEnv :=
  ⟨.ok (.dict [("homeworks", .list [])]), Option.none, Option.none⟩

/-! Helper lemmas about the loop's transition function. -/

/-- The `try` block never touches `old_error_message`. -/
theorem tryBody_oem (st : LoopState) (env : CycleEnv) :
    (tryBody st env).state.old_error_message = st.old_error_message := by
  unfold tryBody
  repeat' split
  all_goals rfl

/-- When the fetch raises, the `try` block stops at once: state
untouched, nothing sent, the exception passed on. -/
theorem tryBody_fetchError (st : LoopState) (env : CycleEnv) (e : PyExc)
    (h : get_api_answer env.fetch = .error e) :
    tryBody st env = ⟨st, [], some e⟩ := by
  unfold tryBody
  rw [h]

/-- After a successful fetch whose `response.get('current_date')`
evaluates to `v`, the cursor held at the end of the `try` block is `v`,
whatever happens later in the block. -/
theorem tryBody_cursor_set (st : LoopState) (env : CycleEnv) (r v : PyVal)
    (hf : env.fetch = .ok r) (hg : pyGetMeth r "current_date" = .ok v) :
    (tryBody st env).state.current_timestamp = v := by
  unfold tryBody
  rw [hf]
  show (match get_api_answer (.ok r) with
    | .error e => (⟨st, [], some e⟩ : TryOut)
    | .ok response => _).state.current_timestamp = v
  rw [show get_api_answer (.ok r) = .ok r from rfl]
  simp only
  rw [hg]
  repeat' split
  all_goals simp_all

/-- Every cycle issues its request with the incoming cursor as
`from_date`. -/
theorem runCycle_fromDate (st : LoopState) (env : CycleEnv) :
    (runCycle st env).fromDate = st.current_timestamp := by
  unfold runCycle
  repeat' split
  all_goals rfl

/-- The cursor a cycle leaves behind is exactly the cursor its `try`
block left behind (the `except` handler never touches it). -/
theorem runCycle_cursor (st : LoopState) (env : CycleEnv) :
    (runCycle st env).state.current_timestamp = (tryBody st env).state.current_timestamp := by
  unfold runCycle
  repeat' split
  all_goals rfl

/-- If the error-channel send does not raise, a cycle never crashes the
process. -/
theorem runCycle_no_crash (st : LoopState) (env : CycleEnv)
    (h : env.errorSend = Option.none) :
    (runCycle st env).crashed = Option.none := by
  unfold runCycle
  repeat' split
  all_goals simp_all

/-- When the fetch fails but the get-method call would error, the `try`
block stops with the state untouched. -/
theorem tryBody_getError (st : LoopState) (env : CycleEnv) (r : PyVal) (e : PyExc)
    (hf : env.fetch = .ok r) (hg : pyGetMeth r "current_date" = .error e) :
    tryBody st env = ⟨st, [], some e⟩ := by
  unfold tryBody
  rw [hf]
  show (match get_api_answer (.ok r) with
    | .error e => (⟨st, [], some e⟩ : TryOut)
    | .ok response => _) = _
  rw [show get_api_answer (.ok r) = .ok r from rfl]
  simp only
  rw [hg]

/-- A cycle whose `try` block raised nothing keeps the block's state and
sends and does not crash. -/
theorem runCycle_ok_shape (st : LoopState) (env : CycleEnv)
    (h : (tryBody st env).exc = Option.none) :
    runCycle st env
      = ⟨st.current_timestamp, (tryBody st env).state, (tryBody st env).sends, Option.none⟩ := by
  unfold runCycle
  rw [h]

/-- A cycle whose `try` block raised `e`, where the report is new and
the error-channel send succeeds: the report is sent and recorded. -/
theorem runCycle_report_sent (st : LoopState) (env : CycleEnv) (e : PyExc)
    (hx : (tryBody st env).exc = some e)
    (hs : env.errorSend = Option.none)
    (hne : errReport e ≠ st.old_error_message) :
    runCycle st env
      = ⟨st.current_timestamp, ⟨(tryBody st env).state.current_timestamp, errReport e⟩,
          (tryBody st env).sends ++ [⟨.error, errReport e, true⟩], Option.none⟩ := by
  unfold runCycle
  rw [hx, hs]
  rw [tryBody_oem st env]
  simp only [ne_eq, hne, not_false_iff, if_true]

/-- A cycle whose `try` block raised `e` with a report equal to the last
one sent: nothing more is sent, the state of the block is kept. -/
theorem runCycle_report_suppressed (st : LoopState) (env : CycleEnv) (e : PyExc)
    (hx : (tryBody st env).exc = some e)
    (heq : errReport e = st.old_error_message) :
    runCycle st env
      = ⟨st.current_timestamp, (tryBody st env).state, (tryBody st env).sends, Option.none⟩ := by
  unfold runCycle
  rw [hx, tryBody_oem st env]
  simp only [ne_eq, heq, not_true, not_false_iff]
  simp

/-- A cycle whose `try` block raised `e`, where the report is new and
the error-channel send raises `d`: the failed attempt is recorded and the
exception `d` escapes the loop. -/
theorem runCycle_report_crash (st : LoopState) (env : CycleEnv) (e d : PyExc)
    (hx : (tryBody st env).exc = some e)
    (hs : env.errorSend = some d)
    (hne : errReport e ≠ st.old_error_message) :
    runCycle st env
      = ⟨st.current_timestamp, (tryBody st env).state,
          (tryBody st env).sends ++ [⟨.error, errReport e, false⟩], some d⟩ := by
  unfold runCycle
  rw [hx, hs, tryBody_oem st env]
  simp only [ne_eq, hne, not_false_iff, if_true]

/-- The `try` block only ever invokes the status-channel send. -/
theorem tryBody_sends_status (st : LoopState) (env : CycleEnv) :
    ∀ s ∈ (tryBody st env).sends, s.channel = Channel.status := by
  unfold tryBody
  repeat' split
  all_goals simp

/-- Send events on other channels contribute nothing to `sentOn c`. -/
theorem filterMap_sends_none {l : List SendEvent} {c : Channel}
    (h : ∀ s ∈ l, s.channel ≠ c) :
    l.filterMap
      (fun s => if s.channel = c ∧ s.delivered then some s.message else Option.none) = [] := by
  induction l with
  | nil => rfl
  | cons a l ih =>
    have ha := h a (by simp)
    have hrest := ih (fun s hs => h s (by simp [hs]))
    simp [List.filterMap_cons, ha, hrest]

/-- A trace step that does not crash. -/
theorem runTrace_cons_no_crash (st : LoopState) (env : CycleEnv) (rest : List CycleEnv)
    (h : (runCycle st env).crashed = Option.none) :
    runTrace st (env :: rest) = runCycle st env :: runTrace (runCycle st env).state rest := by
  rw [runTrace, h]

/-- A one-cycle trace is just that cycle. -/
theorem runTrace_single (st : LoopState) (env : CycleEnv) :
    runTrace st [env] = [runCycle st env] := by
  rw [runTrace]
  cases h : (runCycle st env).crashed
  · simp [runTrace]
  · rfl

/-- `check_response` succeeds, returning the `homeworks` value
unchanged, whenever the response is a dict whose `homeworks` key holds a
list. -/
theorem check_response_ok (ps : List (String × PyVal)) (l : List PyVal)
    (h : ps.lookup "homeworks" = some (.list l)) :
    check_response (.dict ps) = .ok (.list l) := by
  simp [check_response, pyContains, pySubscript, PyVal.isDict, PyVal.isList, h, bind,
    Except.bind]

/-- With a successful fetch of a dict whose `homeworks` key holds the
empty list, the `try` block sends nothing and raises nothing. -/
theorem tryBody_empty_list (st : LoopState) (env : CycleEnv)
    (ps : List (String × PyVal))
    (hf : env.fetch = .ok (.dict ps))
    (hhw : ps.lookup "homeworks" = some (.list [])) :
    (tryBody st env).sends = [] ∧ (tryBody st env).exc = Option.none := by
  unfold tryBody
  rw [hf]
  show ((match get_api_answer (.ok (.dict ps)) with
    | .error e => (⟨st, [], some e⟩ : TryOut)
    | .ok response => _).sends = [] ∧ _)
  rw [show get_api_answer (.ok (.dict ps)) = .ok (.dict ps) from rfl]
  simp only [pyGetMeth]
  rw [check_response_ok ps [] hhw]
  cases hcd : ps.lookup "current_date" <;> simp

/-! Claim theorems. -/

/-- C1: the claim says a repeated identical formatted status message is
notified at most once (dedup against the last sent status message). The
code keeps no last-status-message at all: two consecutive cycles whose
fetches return the identical non-empty response each invoke the notifier
with the same formatted message, so it is delivered twice. (Evaluation of
the code at the failing input; the inline comment at line 166 claims the
message is sent only on changes.) -/
theorem c1_status_dedup_missing_eval :
    sentOn .status (runTrace stInit [envApproved, envApproved])
      = [approvedMsg, approvedMsg] := rfl

/-- C2 counterexample: a cycle whose fetch raises and whose error-channel
`send_message` also raises does NOT swallow the delivery failure — the
exception escapes the loop (`crashed` is set), terminating the process
from within a cycle, contrary to the claim. -/
theorem c2_notifier_failure_not_swallowed_cex :
    (runCycle stInit envFetchFailCrash).crashed = some (.telegramError "down") := rfl

/-- C3 counterexample: after an error cycle, a successful cycle, and a
recurrence of the identical error, only ONE error notification has been
sent in total — the successful cycle does not clear the last error
message, so the recurrence is still suppressed, contrary to the claim
that it is notified again after the condition clears. -/
theorem c3_no_reset_after_success_cex :
    sentOn .error (runTrace stInit [envFetchFail, envEmptyOk, envFetchFail])
      = [fetchFailReport] := rfl

/-- C4: evaluation of `check_response` at the failing inputs: a dict
without the `homeworks` key raises the bare `KeyError` of the premature
subscript on line 86, and a non-dict response raises `TypeError` from the
`in` test on line 84 — not the typed `WrongJSONError` the claim (and the
code's own error-message scaffolding and line-88 comment) prescribe. -/
theorem c4_wrong_exception_type_eval :
    check_response (.dict []) = .error (.keyError "homeworks")
    ∧ check_response (.int 5) = .error (.typeError "argument of type is not iterable") :=
  ⟨rfl, rfl⟩

/-- C5 counterexample: a parsed response whose `homeworks` is a list but
which lacks `current_date` passes `check_response` without any error, so
the validator does not fail with `InvalidSchema` on a missing
`current_date`, contrary to the claim. -/
theorem c5_current_date_not_checked_cex :
    check_response (.dict [("homeworks", .list [])]) = .ok (.list []) := rfl

/-- C5 (amended): this variant of the validator does not require
`current_date`: every parsed response that is a dict whose `homeworks`
key holds a list passes validation even when `current_date` is absent. -/
theorem c5_current_date_optional (ps : List (String × PyVal)) (l : List PyVal)
    (h : ps.lookup "homeworks" = some (.list l))
    (hcd : ps.lookup "current_date" = Option.none) :
    check_response (.dict ps) = .ok (.list l) :=
  check_response_ok ps l h

/-- Witness for C5 (amended) at a concrete response. -/
theorem c5_current_date_optional_witness :
    check_response (.dict [("homeworks", .list [.int 1])]) = .ok (.list [.int 1]) :=
  c5_current_date_optional [("homeworks", .list [.int 1])] [.int 1] rfl rfl

/-- C9: for every cycle whose fetch succeeds with a valid response whose
`homeworks` list is empty, no notification is attempted on either channel
and the cycle does not crash (the empty case is logged only). -/
theorem c9_empty_homeworks_silent (st : LoopState) (env : CycleEnv)
    (ps : List (String × PyVal))
    (hf : env.fetch = .ok (.dict ps))
    (hhw : ps.lookup "homeworks" = some (.list [])) :
    (runCycle st env).sends = [] ∧ (runCycle st env).crashed = Option.none := by
  obtain ⟨hsends, hexc⟩ := tryBody_empty_list st env ps hf hhw
  rw [runCycle_ok_shape st env hexc]
  exact ⟨hsends, rfl⟩

/-- Witness for C9 at a concrete empty-homeworks cycle. -/
theorem c9_empty_homeworks_silent_witness :
    (runCycle stInit envEmptyOk).sends = [] ∧ (runCycle stInit envEmptyOk).crashed = Option.none :=
  c9_empty_homeworks_silent stInit envEmptyOk
    [("homeworks", .list []), ("current_date", .int 7)] rfl rfl

/-- C7 counterexample: a record whose `status` is a list carries a
status outside the three recognized values, yet `parse_status` raises
the `TypeError` of the unhashable dict-membership test of line 105, not
the unknown-status `KeyError` (the claim's `UnknownStatus`). -/
theorem c7_unhashable_status_cex :
    parse_status (.dict [("homework_name", .str "a"), ("status", .list [])])
      = .error (.typeError ("unhashable type: " ++ squote ++ "list" ++ squote)) := rfl

/-- C7 (amended): `parse_status` on a homework record (a dict): a
missing `homework_name` fails with the `KeyError` of the missing field
(the spec's `MissingField`), as does a missing `status`; a present,
hashable status whose membership test comes back false fails with the
`KeyError` carrying the unknown-status message (the spec's
`UnknownStatus`); a present but unhashable status (a list or a dict)
instead propagates the `TypeError` raised by the membership test
itself; and a record with both keys and a recognized status yields
exactly the fixed-template sentence with the name interpolated and the
verdict from the 3-entry table. -/
theorem c7_parse_status_cases (ps : List (String × PyVal)) :
    (ps.lookup "homework_name" = Option.none →
      parse_status (.dict ps) = .error (.keyError "homework_name"))
    ∧ (∀ n, ps.lookup "homework_name" = some n → ps.lookup "status" = Option.none →
      parse_status (.dict ps) = .error (.keyError "status"))
    ∧ (∀ n sv, ps.lookup "homework_name" = some n → ps.lookup "status" = some sv →
      statusKnown sv = .ok false →
      parse_status (.dict ps)
        = .error (.keyError "Неправильный статус проверки домашней работы"))
    ∧ (∀ n sv e, ps.lookup "homework_name" = some n → ps.lookup "status" = some sv →
      statusKnown sv = .error e →
      parse_status (.dict ps) = .error e)
    ∧ (∀ n s verdict, ps.lookup "homework_name" = some n →
      ps.lookup "status" = some (.str s) →
      HOMEWORK_STATUSES.lookup s = some verdict →
      parse_status (.dict ps)
        = .ok ("Изменился статус проверки работы \"" ++ pyStrOf n ++ "\". " ++ verdict)) := by
  refine ⟨fun h1 => ?_, fun n h1 h2 => ?_, fun n sv h1 h2 h3 => ?_, fun n sv e h1 h2 h3 => ?_,
    fun n s verdict h1 h2 h3 => ?_⟩
  · simp [parse_status, pyContains, pySubscript, h1, bind, Except.bind]
  · simp [parse_status, pyContains, pySubscript, h1, h2, bind, Except.bind]
  · simp only [parse_status, pyContains, pySubscript, h1, h2, h3, bind, Except.bind,
      Option.isSome_some]
    rfl
  · simp [parse_status, pyContains, pySubscript, h1, h2, h3, bind, Except.bind]
  · simp [parse_status, pyContains, pySubscript, statusKnown, h1, h2, h3, bind, Except.bind]

/-- C2 (amended): every error raised in a cycle's `try` block is caught
at the cycle boundary and, when its report text is new, converted into an
error-channel notification; as long as the error-channel send itself does
not raise, no cycle ever crashes the process. However, the delivery
failure of the error-channel send is NOT swallowed: a crash happens
exactly when the notifier fails while reporting a `try`-block error, and
the escaping exception is the notifier's own. -/
theorem c2_cycle_error_containment (st : LoopState) (env : CycleEnv) :
    (env.errorSend = Option.none → (runCycle st env).crashed = Option.none)
    ∧ (∀ e, (tryBody st env).exc = some e → env.errorSend = Option.none →
        errReport e ≠ st.old_error_message →
        sentOn .error [runCycle st env] = [errReport e])
    ∧ (∀ d, (runCycle st env).crashed = some d →
        env.errorSend = some d ∧ (tryBody st env).exc ≠ Option.none) := by
  refine ⟨runCycle_no_crash st env, fun e hx hs hne => ?_, fun d hd => ?_⟩
  · rw [runCycle_report_sent st env e hx hs hne]
    have hstat := tryBody_sends_status st env
    simp only [sentOn, List.map_cons, List.map_nil, List.flatten_cons, List.flatten_nil,
      List.append_nil, List.filterMap_append]
    rw [filterMap_sends_none (fun s hs' => by rw [hstat s hs']; simp)]
    simp
  · rcases hx : (tryBody st env).exc with _ | e
    · rw [runCycle_ok_shape st env hx] at hd
      cases hd
    · by_cases hne : errReport e = st.old_error_message
      · rw [runCycle_report_suppressed st env e hx hne] at hd
        cases hd
      · rcases hes : env.errorSend with _ | x
        · rw [runCycle_report_sent st env e hx hes hne] at hd
          cases hd
        · rw [runCycle_report_crash st env e x hx hes hne] at hd
          simp only at hd
          exact ⟨by rw [hd], fun hc => Option.noConfusion hc⟩

/-- Witness for C2 (amended): a fetch-failure cycle with a working
error channel does not crash and delivers exactly the report. -/
theorem c2_cycle_error_containment_witness :
    (runCycle stInit envFetchFail).crashed = Option.none
    ∧ sentOn .error [runCycle stInit envFetchFail] = [fetchFailReport] :=
  ⟨(c2_cycle_error_containment stInit envFetchFail).1 rfl,
   (c2_cycle_error_containment stInit envFetchFail).2.1
     (.wrongResponseError "Ошибка сервера \x7be\x7d") rfl rfl (by decide)⟩

/-- C3 (amended): two consecutive cycles failing with the same
error-report text send exactly one error notification; the suppression
lasts until the error text changes (a different report on the second
cycle is sent, giving two notifications). But a successful cycle does
not clear the stored last error message, so the suppression does NOT end
when the error condition clears. -/
theorem c3_error_dedup (st : LoopState) (env1 env2 : CycleEnv) (e1 e2 : PyExc)
    (h1 : get_api_answer env1.fetch = .error e1)
    (h2 : get_api_answer env2.fetch = .error e2)
    (hs1 : env1.errorSend = Option.none) (hs2 : env2.errorSend = Option.none)
    (hne : errReport e1 ≠ st.old_error_message) :
    (errReport e2 = errReport e1 →
      sentOn .error (runTrace st [env1, env2]) = [errReport e1])
    ∧ (errReport e2 ≠ errReport e1 →
      sentOn .error (runTrace st [env1, env2]) = [errReport e1, errReport e2])
    ∧ (∀ st' env', (tryBody st' env').exc = Option.none →
        (runCycle st' env').state.old_error_message = st'.old_error_message) := by
  have htb1 : tryBody st env1 = ⟨st, [], some e1⟩ := tryBody_fetchError st env1 e1 h1
  have hout1 : runCycle st env1
      = ⟨st.current_timestamp, ⟨st.current_timestamp, errReport e1⟩,
          [⟨.error, errReport e1, true⟩], Option.none⟩ := by
    rw [runCycle_report_sent st env1 e1 (by rw [htb1]) hs1 hne, htb1]
    rfl
  have htrace : runTrace st [env1, env2]
      = runCycle st env1 :: [runCycle (⟨st.current_timestamp, errReport e1⟩ : LoopState) env2] := by
    rw [runTrace_cons_no_crash st env1 [env2] (by rw [hout1]), hout1, runTrace_single]
  have htb2 : tryBody (⟨st.current_timestamp, errReport e1⟩ : LoopState) env2
      = ⟨⟨st.current_timestamp, errReport e1⟩, [], some e2⟩ :=
    tryBody_fetchError _ env2 e2 h2
  refine ⟨fun heq => ?_, fun hne2 => ?_, fun st' env' h => ?_⟩
  · have hout2 : runCycle (⟨st.current_timestamp, errReport e1⟩ : LoopState) env2
        = ⟨st.current_timestamp, ⟨st.current_timestamp, errReport e1⟩, [], Option.none⟩ := by
      rw [runCycle_report_suppressed _ env2 e2 (by rw [htb2]) heq, htb2]
    rw [htrace, hout1, hout2]
    simp [sentOn]
  · have hout2 : runCycle (⟨st.current_timestamp, errReport e1⟩ : LoopState) env2
        = ⟨st.current_timestamp, ⟨st.current_timestamp, errReport e2⟩,
            [⟨.error, errReport e2, true⟩], Option.none⟩ := by
      rw [runCycle_report_sent _ env2 e2 (by rw [htb2]) hs2 hne2, htb2]
      rfl
    rw [htrace, hout1, hout2]
    simp [sentOn]
  · rw [runCycle_ok_shape st' env' h]
    exact tryBody_oem st' env'

/-- Witness for C3 (amended): two identical fetch failures in a row
deliver the report exactly once. -/
theorem c3_error_dedup_witness :
    sentOn .error (runTrace stInit [envFetchFail, envFetchFail]) = [fetchFailReport] :=
  (c3_error_dedup stInit envFetchFail envFetchFail
    (.wrongResponseError "Ошибка сервера \x7be\x7d")
    (.wrongResponseError "Ошибка сервера \x7be\x7d")
    rfl rfl rfl rfl (by decide)).1 rfl

/-- Witness for C7 (amended): a record with a recognized status formats
to the template sentence. -/
theorem c7_parse_status_cases_witness :
    parse_status (.dict [("homework_name", .str "hw2"), ("status", .str "reviewing")])
      = .ok ("Изменился статус проверки работы \"" ++ pyStrOf (.str "hw2") ++ "\". "
          ++ "Работа взята на проверку ревьюером.") :=
  (c7_parse_status_cases [("homework_name", .str "hw2"), ("status", .str "reviewing")]).2.2.2.2
    (.str "hw2") "reviewing" "Работа взята на проверку ревьюером." rfl rfl rfl

/-- C6: the poll cursor is reassigned only by
`current_timestamp = response.get('current_date')` after a successful
fetch: a failed fetch leaves it unchanged (as does a successful fetch of
a non-dict, where `.get` raises before the assignment); every cycle
requests with the incoming cursor as `from_date`, so after a failed
fetch the next cycle re-requests from the same point. -/
theorem c6_cursor_only_from_current_date (st : LoopState) (env env2 : CycleEnv) :
    (∀ e, get_api_answer env.fetch = .error e →
      (runCycle st env).state.current_timestamp = st.current_timestamp)
    ∧ (∀ r v, env.fetch = .ok r → pyGetMeth r "current_date" = .ok v →
      (runCycle st env).state.current_timestamp = v)
    ∧ (∀ r e, env.fetch = .ok r → pyGetMeth r "current_date" = .error e →
      (runCycle st env).state.current_timestamp = st.current_timestamp)
    ∧ (runCycle st env).fromDate = st.current_timestamp
    ∧ (∀ e, get_api_answer env.fetch = .error e → env.errorSend = Option.none →
      (runTrace st [env, env2]).map (fun o => o.fromDate)
        = [st.current_timestamp, st.current_timestamp]) := by
  refine ⟨fun e he => ?_, fun r v hf hg => ?_, fun r e hf hg => ?_,
    runCycle_fromDate st env, fun e he hs => ?_⟩
  · rw [runCycle_cursor, tryBody_fetchError st env e he]
  · rw [runCycle_cursor]
    exact tryBody_cursor_set st env r v hf hg
  · rw [runCycle_cursor, tryBody_getError st env r e hf hg]
  · rw [runTrace_cons_no_crash st env [env2] (runCycle_no_crash st env hs), runTrace_single]
    simp only [List.map_cons, List.map_nil]
    rw [runCycle_fromDate, runCycle_fromDate, runCycle_cursor, tryBody_fetchError st env e he]

/-- Witness for C6: a failed fetch leaves the cursor at its incoming
value and the next request reuses it. -/
theorem c6_cursor_only_from_current_date_witness :
    (runCycle stInit envFetchFail).state.current_timestamp = PyVal.int 0
    ∧ (runTrace stInit [envFetchFail, envEmptyOk]).map (fun o => o.fromDate)
        = [PyVal.int 0, PyVal.int 0] :=
  ⟨(c6_cursor_only_from_current_date stInit envFetchFail envEmptyOk).1
      (.wrongResponseError "Ошибка сервера \x7be\x7d") rfl,
   (c6_cursor_only_from_current_date stInit envFetchFail envEmptyOk).2.2.2.2
      (.wrongResponseError "Ошибка сервера \x7be\x7d") rfl rfl⟩

/-- C8: if any of the three credentials is unset, `main`'s startup
raises before the poll loop is ever entered; in the variant where only
the Practicum token is missing but both Telegram credentials are
present, exactly one best-effort startup notice is sent (and delivered,
when the transport works) before the terminating `ValueError`. -/
theorem c8_startup_requires_tokens (p t c : Option String) (o : Option PyExc) :
    ((p = Option.none ∨ t = Option.none ∨ c = Option.none) →
      startupMain p t c o ≠ .proceeded)
    ∧ (p = Option.none → t ≠ Option.none → c ≠ Option.none →
      startupMain p t c Option.none
        = .exited (.valueError startupNoticeMsg) [(startupNoticeMsg, true)]) := by
  constructor
  · intro h
    have hct : check_tokens p t c = false := by
      rcases h with h | h | h <;> simp [check_tokens, h]
    simp only [startupMain, hct]
    split
    · cases o <;> simp
    · split
      · simp
      · simp_all
  · intro hp ht hc
    have hct : check_tokens p t c = false := by simp [check_tokens, hp]
    simp [startupMain, hct, ht, hc]

/-- Witness for C8: with only the Practicum token missing, one notice is
sent and the process exits; with the bot token missing, it exits without
proceeding. -/
theorem c8_startup_requires_tokens_witness :
    startupMain Option.none (some "T") (some "C") Option.none
      = .exited (.valueError startupNoticeMsg) [(startupNoticeMsg, true)]
    ∧ startupMain (some "P") Option.none (some "C") Option.none ≠ .proceeded :=
  ⟨(c8_startup_requires_tokens Option.none (some "T") (some "C") Option.none).2
      rfl (by simp) (by simp),
   (c8_startup_requires_tokens (some "P") Option.none (some "C") Option.none).1
      (Or.inr (Or.inl rfl))⟩

/-- C10 (implicit): a successful fetch whose dict response lacks
`current_date` overwrites the cursor with `None` (no error is raised by
the assignment), and the following cycle issues its request with that
`None` as `from_date`. -/
theorem c10_missing_current_date_cursor_none (st : LoopState) (env1 env2 : CycleEnv)
    (ps : List (String × PyVal))
    (hf : env1.fetch = .ok (.dict ps))
    (hcd : ps.lookup "current_date" = Option.none)
    (hs : env1.errorSend = Option.none) :
    (runCycle st env1).state.current_timestamp = PyVal.none
    ∧ (runTrace st [env1, env2]).map (fun o => o.fromDate)
        = [st.current_timestamp, PyVal.none] := by
  have hg : pyGetMeth (.dict ps) "current_date" = .ok PyVal.none := by
    simp [pyGetMeth, hcd]
  have hcur : (runCycle st env1).state.current_timestamp = PyVal.none := by
    rw [runCycle_cursor]
    exact tryBody_cursor_set st env1 _ _ hf hg
  refine ⟨hcur, ?_⟩
  rw [runTrace_cons_no_crash st env1 [env2] (runCycle_no_crash st env1 hs), runTrace_single]
  simp only [List.map_cons, List.map_nil]
  rw [runCycle_fromDate, runCycle_fromDate, hcur]

/-- Witness for C10 at a concrete response without `current_date`. -/
theorem c10_missing_current_date_cursor_none_witness :
    (runCycle stInit envNoDate).state.current_timestamp = PyVal.none
    ∧ (runTrace stInit [envNoDate, envEmptyOk]).map (fun o => o.fromDate)
        = [PyVal.int 0, PyVal.none] :=
  c10_missing_current_date_cursor_none stInit envNoDate envEmptyOk
    [("homeworks", .list [])] rfl rfl rfl

end Homework
